import Mathlib

/-!
Verification of the token-issuance and dispatch-deduplication core of the
VOICE-AI-AGENT service, shallowly embedded in Lean.

The embedding follows the Python source:
  * `app/services/agent_service.py` — `DispatchCache.should_skip`,
    `AgentService.create_dispatch`
  * `app/services/token_service.py` — `TokenService.generate_token`,
    `TokenService._build_agent_metadata`, `TokenService.validate_token_request`
  * `app/models/requests.py` — `TokenRequest`, `DispatchRequest`
  * `app/models/responses.py` — `TokenResponse`, `DispatchResponse`
  * `app/config/settings.py` — the configuration fields the core reads.

Wall-clock reads (`time.time()`, `datetime.utcnow()`) are passed in as
explicit parameters of type `ℚ` (seconds) or, where the code consumes only the
ISO-formatted string, as a `String`.  The Python `dict` backing the cache is
embedded as an association list with Python's dict semantics (first occurrence
wins on lookup, assignment replaces in place, otherwise appends).  External
collaborators (the JWT signing primitive, the dispatch RPC) are oracle
function parameters.
-/

namespace VoiceAgent

/-- Configuration fields read by the core (from `app/config/settings.py`:
`Settings`).  All are immutable after process start. -/
structure Settings where
  environment : String
  livekit_ws_url : String
  livekit_api_key : String
  livekit_api_secret : String
  agent_name : String
  max_token_ttl_minutes : Int
  dispatch_cache_ttl_seconds : ℚ
  max_room_name_length : Nat
  max_identity_length : Nat
  deriving Repr, DecidableEq

/-! ### Python dict primitives

The cache in `agent_service.py` is a `Dict[Tuple[str, str], float]`.  We embed
it as an association list.  `dictFind` is `d[k]` / `k in d` combined into an
`Option`; `dictInsert` is `d[k] = v` (replace the existing binding in place,
else append). -/

/-- Lookup of a key in a Python dict embedded as an association list:
returns the value at the first occurrence of the key, if any. -/
def dictFind (k : String × String) : List ((String × String) × ℚ) → Option ℚ
  | [] => none
  | e :: es => if e.1 = k then some e.2 else dictFind k es

/-- Python dict assignment `d[k] = v`: replace the first binding of `k` in
place if present, otherwise append the new binding at the end. -/
def dictInsert (k : String × String) (v : ℚ) :
    List ((String × String) × ℚ) → List ((String × String) × ℚ)
  | [] => [(k, v)]
  | e :: es => if e.1 = k then (k, v) :: es else e :: dictInsert k v es

/-- The dispatch deduplication cache (`DispatchCache` in
`agent_service.py`): a TTL window in seconds and a map from
`(room, agent)` keys to the timestamp of the last accepted dispatch. -/
structure DispatchCache where
  ttl_seconds : ℚ
  cache : List ((String × String) × ℚ)
  deriving Repr, DecidableEq

/-- Negation of the eviction condition of `should_skip`: an entry survives
the sweep iff `now - timestamp > ttl` is false. -/
def not_expired (ttl now : ℚ) (e : (String × String) × ℚ) : Bool :=
  !(decide (now - e.2 > ttl))

/-- `DispatchCache.should_skip(room, agent)` from `agent_service.py`, with the
`time.time()` read passed in as `now`. It first evicts every entry with
`now - timestamp > ttl_seconds`, then returns `true` (suppress) if a
surviving entry for `(room, agent)` has `now - timestamp < ttl_seconds`,
and otherwise records `now` for the key and returns `false` (proceed).
Returns the decision together with the updated cache. -/
def should_skip (c : DispatchCache) (room agent : String) (now : ℚ) :
    Bool × DispatchCache :=
  let key := (room, agent)
  let cleaned := c.cache.filter (not_expired c.ttl_seconds now)
  match dictFind key cleaned with
  | some ts =>
      if now - ts < c.ttl_seconds then
        (true, ⟨c.ttl_seconds, cleaned⟩)
      else
        (false, ⟨c.ttl_seconds, dictInsert key now cleaned⟩)
  | none => (false, ⟨c.ttl_seconds, dictInsert key now cleaned⟩)

/-! ### Lemmas about the dict primitives -/

theorem dictFind_insert_self (k : String × String) (v : ℚ)
    (l : List ((String × String) × ℚ)) : dictFind k (dictInsert k v l) = some v := by
  induction l with
  | nil => simp [dictInsert, dictFind]
  | cons e es ih =>
      by_cases h : e.1 = k
      · simp [dictInsert, dictFind, h]
      · simp [dictInsert, dictFind, h, ih]

theorem dictFind_filter_of_keep (k : String × String) (t : ℚ) (q : ℚ → Bool)
    (l : List ((String × String) × ℚ)) (hfind : dictFind k l = some t)
    (hq : q t = true) :
    dictFind k (l.filter (fun e => q e.2)) = some t := by
  induction l with
  | nil => simp [dictFind] at hfind
  | cons e es ih =>
      by_cases h : e.1 = k
      · simp [dictFind, h] at hfind
        subst hfind
        simp [List.filter, hq, dictFind, h]
      · simp [dictFind, h] at hfind
        rcases he : q e.2 with _ | _
        · simpa [List.filter, he] using ih hfind
        · simpa [List.filter, he, dictFind, h] using ih hfind

theorem dictFind_eq_none_of_not_mem (k : String × String)
    (l : List ((String × String) × ℚ)) (h : k ∉ l.map Prod.fst) :
    dictFind k l = none := by
  induction l with
  | nil => simp [dictFind]
  | cons e es ih =>
      simp only [List.map_cons, List.mem_cons] at h
      push_neg at h
      have h1 : e.1 ≠ k := fun hc => h.1 hc.symm
      simp [dictFind, h1, ih h.2]

theorem dictFind_filter_nodup (k : String × String) (t : ℚ) (q : ℚ → Bool)
    (l : List ((String × String) × ℚ)) (hnd : (l.map Prod.fst).Nodup)
    (hfind : dictFind k l = some t) :
    dictFind k (l.filter (fun e => q e.2)) = if q t then some t else none := by
  induction l with
  | nil => simp [dictFind] at hfind
  | cons e es ih =>
      simp only [List.map_cons, List.nodup_cons] at hnd
      by_cases h : e.1 = k
      · simp [dictFind, h] at hfind
        subst hfind
        rcases hq : q e.2 with _ | _
        · have hnm : k ∉ (es.filter (fun x => q x.2)).map Prod.fst := by
            intro hmem
            rcases List.mem_map.mp hmem with ⟨x, hx, hxk⟩
            exact hnd.1 (by
              subst h
              exact hxk ▸ List.mem_map_of_mem Prod.fst (List.mem_of_mem_filter hx))
          simp [List.filter, hq, dictFind_eq_none_of_not_mem k _ hnm]
        · simp [List.filter, hq, dictFind, h]
      · simp [dictFind, h] at hfind
        rcases he : q e.2 with _ | _
        · simpa [List.filter, he] using ih hnd.2 hfind
        · simpa [List.filter, he, dictFind, h] using ih hnd.2 hfind

theorem dictFind_filter_not_expired_keep (ttl now : ℚ) (k : String × String)
    (t : ℚ) (l : List ((String × String) × ℚ))
    (hfind : dictFind k l = some t) (h : ¬(now - t > ttl)) :
    dictFind k (l.filter (not_expired ttl now)) = some t :=
  dictFind_filter_of_keep k t (fun ts => !(decide (now - ts > ttl))) l hfind
    (by simp [h])

theorem dictFind_filter_not_expired_nodup (ttl now : ℚ) (k : String × String)
    (t : ℚ) (l : List ((String × String) × ℚ))
    (hnd : (l.map Prod.fst).Nodup) (hfind : dictFind k l = some t) :
    dictFind k (l.filter (not_expired ttl now))
      = if now - t > ttl then none else some t := by
  have h := dictFind_filter_nodup k t (fun ts => !(decide (now - ts > ttl))) l
    hnd hfind
  by_cases hgt : now - t > ttl
  · rw [if_neg (by simp [hgt])] at h
    rw [if_pos hgt]
    exact h
  · rw [if_pos (by simp [hgt])] at h
    rw [if_neg hgt]
    exact h

/-! ### Dispatch service (`app/services/agent_service.py`) -/

/-- `DispatchRequest` from `app/models/requests.py`: room name, optional
agent-name override, and a metadata JSON string (pydantic default `"{}"`,
with the validator coercing a falsy value back to `"{}"`). -/
structure DispatchRequest where
  room : String
  agent_name : Option String
  metadata : String
  deriving Repr, DecidableEq

/-- The pydantic field constraint on `DispatchRequest.agent_name`
(`Field(None, max_length=100)`); there is no charset or minimum-length
validator on this field, so the empty string passes. -/
def dispatch_agent_name_field_ok : Option String → Bool
  | none => true
  | some s => decide (s.length ≤ 100)

/-- `DispatchResponse` from `app/models/responses.py`. -/
structure DispatchResponse where
  dispatch_id : String
  room : String
  agent_name : String
  note : Option String
  deriving Repr, DecidableEq

/-- `AgentDispatchError` from `app/core/exceptions.py`, carrying its detail
string. -/
structure AgentDispatchError where
  detail : String
  deriving Repr, DecidableEq

/-- Python `a or b` on an optional string and a string: `None` and the empty
string are falsy, anything else is returned unchanged.  This is
`request.agent_name or self.settings.agent_name` in `create_dispatch` and
`metadata or "{}"` in `_create_livekit_dispatch`. -/
def py_or_str (a : Option String) (b : String) : String :=
  match a with
  | none => b
  | some s => if s = "" then b else s

/-- True exactly when a fallible operation raised (returned the embedded
counterpart of a Python exception). -/
def isError {ε α : Type} : Except ε α → Bool
  | .error _ => true
  | .ok _ => false

/-- `AgentService.create_dispatch` from `agent_service.py`, with the clock
read inside `should_skip` passed in as `now` and the external LiveKit RPC
(`_create_livekit_dispatch`) as the oracle `rpc room agent metadata`,
returning either a dispatch id or the message of a raised exception.
The effective agent name is `request.agent_name or settings.agent_name`;
if the cache suppresses, the sentinel response is returned with no use of
`rpc`; otherwise the RPC result is returned, errors being wrapped into
`AgentDispatchError`.  Returns the outcome with the updated cache. -/
def create_dispatch (s : Settings) (c : DispatchCache) (now : ℚ)
    (rpc : String → String → String → Except String String)
    (request : DispatchRequest) :
    Except AgentDispatchError DispatchResponse × DispatchCache :=
  let agent_name := py_or_str request.agent_name s.agent_name
  match should_skip c request.room agent_name now with
  | (true, c2) =>
      (.ok ⟨"skipped", request.room, agent_name, some "duplicate-suppressed"⟩, c2)
  | (false, c2) =>
      match rpc request.room agent_name (py_or_str (some request.metadata) "\x7b\x7d") with
      | .ok dispatch_id => (.ok ⟨dispatch_id, request.room, agent_name, none⟩, c2)
      | .error e =>
          (.error ⟨"Failed to create agent dispatch: " ++ e⟩, c2)

/-! ### Token service (`app/services/token_service.py`) -/

/-- `TokenRequest` from `app/models/requests.py`. -/
structure TokenRequest where
  room : String
  identity : Option String
  name : Option String
  ttl_minutes : Int
  mic_only : Bool
  dispatch_agent : Bool
  deriving Repr, DecidableEq

/-- Python `str.isalnum` restricted to ASCII: true on a nonempty string all
of whose characters are alphanumeric (the empty string is falsy). -/
def py_isalnum (s : String) : Bool :=
  !s.data.isEmpty && s.data.all Char.isAlphanum

/-- The charset validator shared by `TokenRequest.room` and
`TokenRequest.identity`: `v.replace('-', '').replace('_', '').isalnum()`. -/
def charset_ok (s : String) : Bool :=
  py_isalnum ⟨s.data.filter (fun ch => !(ch = '-' || ch = '_'))⟩

/-- The pydantic validation of `TokenRequest` (`app/models/requests.py`):
field bounds plus the `validate_room_name` and `validate_identity`
validators (the identity validator is skipped for `None` or `""`,
which are falsy). -/
def token_request_valid (r : TokenRequest) : Bool :=
  1 ≤ r.room.length && r.room.length ≤ 100 && charset_ok r.room
    && (match r.identity with
        | none => true
        | some i => decide (i.length ≤ 100) && (i = "" || charset_ok i))
    && (match r.name with
        | none => true
        | some n => decide (n.length ≤ 100))
    && 1 ≤ r.ttl_minutes && r.ttl_minutes ≤ 1440

/-- `VideoGrants` as populated by `generate_token`: room join, publish and
subscribe flags for a room, plus the optional publish-source restriction
(absent unless set). -/
structure VideoGrants where
  room_join : Bool
  room : String
  can_publish : Bool
  can_subscribe : Bool
  can_publish_sources : Option (List String) := none
  deriving Repr, DecidableEq

/-- `RoomAgentDispatch`: the agent-dispatch instruction embedded in the
token's room configuration. -/
structure RoomAgentDispatch where
  agent_name : String
  metadata : String
  deriving Repr, DecidableEq

/-- `RoomConfiguration`: the room configuration attached to the token. -/
structure RoomConfiguration where
  agents : List RoomAgentDispatch
  deriving Repr, DecidableEq

/-- The fully assembled `AccessToken` builder handed to the signing
primitive (`AccessToken(...).with_identity(...).with_name(...)
.with_grants(...).with_ttl(...)` and optionally `.with_room_config(...)`). -/
structure AccessToken where
  api_key : String
  api_secret : String
  identity : Option String
  name : Option String
  grants : VideoGrants
  ttl_minutes : Int
  room_config : Option RoomConfiguration
  deriving Repr, DecidableEq

/-- `TokenGenerationError` from `app/core/exceptions.py`, carrying its
detail string. -/
structure TokenGenerationError where
  detail : String
  deriving Repr, DecidableEq

/-- `TokenResponse` from `app/models/responses.py`.  `identity` is a
required string (`identity: str`), so constructing the model with
`identity=None` raises a pydantic validation error.  `expires_at` is an
absolute timestamp in seconds (`ℚ`). -/
structure TokenResponse where
  token : String
  ws_url : String
  room : String
  identity : String
  ttl_minutes : Int
  expires_at : ℚ
  deriving Repr, DecidableEq

/-- Stands in for `str(e)` of the pydantic `ValidationError` raised when
`TokenResponse` is constructed with `identity=None` (`responses.py`
declares `identity: str` as required).  The embedding fixes a concrete
text; nothing in the development depends on it beyond its occurrence in
the wrapped `TokenGenerationError` detail. -/
def token_response_identity_validation_msg : String :=
  "1 validation error for TokenResponse: identity is required"

/-- Python `a or b` on two optional strings (`request.name or
request.identity` in `generate_token`): `None` and `""` are falsy. -/
def py_or_opt (a b : Option String) : Option String :=
  match a with
  | none => b
  | some s => if s = "" then b else s

/-- `TokenService._build_agent_metadata`, with the
`datetime.utcnow().isoformat()` read passed in as `timestamp_iso`:
a JSON object string with the source tag, the timestamp, and the
environment tag. -/
def build_agent_metadata (timestamp_iso : String) (environment : String) : String :=
  "\x7b\"source\":\"api\",\"timestamp\":\"" ++ timestamp_iso ++
    "\",\"environment\":\"" ++ environment ++ "\"\x7d"

/-- The claim set assembled by `generate_token` before signing: grants
(with the microphone-only restriction applied when `mic_only` is set),
identity, display name (`request.name or request.identity`), TTL, and,
when `dispatch_agent` is set, the room configuration embedding a
`RoomAgentDispatch` with the configured agent name and freshly built
metadata.  `now_meta_iso` is the `utcnow()` read made inside
`_build_agent_metadata` at build time. -/
def build_access_token (s : Settings) (now_meta_iso : String)
    (request : TokenRequest) : AccessToken :=
  let grants : VideoGrants :=
    { room_join := true, room := request.room,
      can_publish := true, can_subscribe := true }
  let grants :=
    if request.mic_only then
      { grants with can_publish_sources := some ["microphone"] }
    else grants
  let token_builder : AccessToken :=
    { api_key := s.livekit_api_key, api_secret := s.livekit_api_secret,
      identity := request.identity,
      name := py_or_opt request.name request.identity,
      grants := grants, ttl_minutes := request.ttl_minutes,
      room_config := none }
  if request.dispatch_agent then
    { token_builder with
        room_config := some ⟨[⟨s.agent_name,
          build_agent_metadata now_meta_iso s.environment⟩]⟩ }
  else token_builder

/-- `TokenService.generate_token` from `token_service.py`.  The signing
primitive `to_jwt` is the oracle `sign`; `now_meta_iso` is the
`utcnow().isoformat()` read inside `_build_agent_metadata` and `now_resp`
the `utcnow()` read (in seconds) used for `expires_at`.  It rejects a TTL
above the configured ceiling before building anything; otherwise it signs
the assembled claim set and constructs the `TokenResponse` with
`expires_at = utcnow() + timedelta(minutes=ttl_minutes)`.  Because
`TokenResponse.identity` is a required string, a request with
`identity=None` makes that construction raise, and the service's
`except` clause wraps the raised validation error into
`TokenGenerationError("Failed to generate token: " + str(e))`. -/
def generate_token (s : Settings) (sign : AccessToken → String)
    (now_meta_iso : String) (now_resp : ℚ) (request : TokenRequest) :
    Except TokenGenerationError TokenResponse :=
  if request.ttl_minutes > s.max_token_ttl_minutes then
    .error ⟨"TTL exceeds maximum allowed: " ++
      toString s.max_token_ttl_minutes ++ " minutes"⟩
  else
    let jwt_token := sign (build_access_token s now_meta_iso request)
    match request.identity with
    | some identity =>
        .ok { token := jwt_token, ws_url := s.livekit_ws_url,
              room := request.room, identity := identity,
              ttl_minutes := request.ttl_minutes,
              expires_at := now_resp + 60 * (request.ttl_minutes : ℚ) }
    | none =>
        .error ⟨"Failed to generate token: " ++
          token_response_identity_validation_msg⟩

/-- `TokenService.validate_token_request` from `token_service.py`: length
checks on room and (truthy) identity against the configured maxima, then
the TTL bounds.  This method is declared on the service but is not called
from `generate_token` nor from any endpoint. -/
def validate_token_request (s : Settings) (request : TokenRequest) :
    Except TokenGenerationError Unit :=
  if request.room.length > s.max_room_name_length then
    .error ⟨"Room name exceeds maximum length: " ++
      toString s.max_room_name_length⟩
  else if (match request.identity with
           | none => false
           | some i => !(i = "") && decide (i.length > s.max_identity_length)) then
    .error ⟨"Identity exceeds maximum length: " ++
      toString s.max_identity_length⟩
  else if request.ttl_minutes < 1 then
    .error ⟨"TTL must be at least 1 minute"⟩
  else if request.ttl_minutes > s.max_token_ttl_minutes then
    .error ⟨"TTL exceeds maximum allowed: " ++
      toString s.max_token_ttl_minutes ++ " minutes"⟩
  else .ok ()

/-! ### Shared concrete configurations used in witnesses -/

/-- A concrete configuration with the default limits of
`app/config/settings.py`. -/
def exampleSettings : Settings :=
  ⟨"development", "wss://example", "key", "secret", "py-agent", 1440, 3, 100, 100⟩

/-- A concrete configuration whose token-TTL ceiling (30 minutes) is below
the request model's own 1440-minute bound. -/
def lowCeilingSettings : Settings :=
  ⟨"development", "wss://example", "key", "secret", "py-agent", 30, 3, 100, 100⟩

/-- A concrete configuration whose maximum room-name length (2) is below
the request model's own 100-character bound. -/
def shortRoomSettings : Settings :=
  ⟨"development", "wss://example", "key", "secret", "py-agent", 1440, 3, 2, 100⟩

/-- A token request that passes the pydantic model validation but whose
room name (3 characters) exceeds `shortRoomSettings.max_room_name_length`. -/
def longRoomRequest : TokenRequest :=
  ⟨"abc", some "user1", none, 60, true, false⟩

/-! ### Behaviour of `should_skip` -/

/-- Full case analysis of `should_skip` on a cache state holding an entry
`t` for the queried key (with the dict invariant that keys are unique):
an expired entry (`now - t > ttl`) is evicted and replaced, a fresh one
(`now - t < ttl`) suppresses without any write, and the boundary case
falls through to replacement. -/
theorem should_skip_spec (c : DispatchCache) (room agent : String)
    (now t : ℚ) (hnd : (c.cache.map Prod.fst).Nodup)
    (hfind : dictFind (room, agent) c.cache = some t) :
    should_skip c room agent now
      = if now - t > c.ttl_seconds then
          (false, ⟨c.ttl_seconds, dictInsert (room, agent) now
            (c.cache.filter (not_expired c.ttl_seconds now))⟩)
        else if now - t < c.ttl_seconds then
          (true, ⟨c.ttl_seconds, c.cache.filter (not_expired c.ttl_seconds now)⟩)
        else
          (false, ⟨c.ttl_seconds, dictInsert (room, agent) now
            (c.cache.filter (not_expired c.ttl_seconds now))⟩) := by
  have hflt := dictFind_filter_not_expired_nodup c.ttl_seconds now (room, agent)
    t c.cache hnd hfind
  simp only [should_skip]
  by_cases hgt : now - t > c.ttl_seconds
  · rw [if_pos hgt] at hflt
    rw [hflt, if_pos hgt]
  · rw [if_neg hgt] at hflt
    rw [hflt, if_neg hgt]

/-- C2: a `should_skip` call at `now - t` exactly equal to `ttl_seconds` is
not suppressed and overwrites the entry with `now`; given an entry `t` for
the key, suppression happens exactly when `now - t` is strictly below
`ttl_seconds`. -/
theorem ttl_boundary_not_suppressed (c : DispatchCache) (room agent : String)
    (now t : ℚ) (hnd : (c.cache.map Prod.fst).Nodup)
    (hfind : dictFind (room, agent) c.cache = some t) :
    ((should_skip c room agent now).1 = true ↔ now - t < c.ttl_seconds)
    ∧ (now - t = c.ttl_seconds →
        (should_skip c room agent now).1 = false
        ∧ dictFind (room, agent) (should_skip c room agent now).2.cache
            = some now) := by
  have hspec := should_skip_spec c room agent now t hnd hfind
  rcases lt_trichotomy (now - t) c.ttl_seconds with h | h | h
  · have hng : ¬(now - t > c.ttl_seconds) := not_lt.mpr h.le
    rw [hspec, if_neg hng, if_pos h]
    refine ⟨by simp [h], fun heq => ?_⟩
    rw [heq] at h
    exact absurd h (lt_irrefl _)
  · have hng : ¬(now - t > c.ttl_seconds) := by
      rw [h]; exact lt_irrefl _
    have hnlt : ¬(now - t < c.ttl_seconds) := by
      rw [h]; exact lt_irrefl _
    rw [hspec, if_neg hng, if_neg hnlt]
    exact ⟨by simp [hnlt], fun _ =>
      ⟨rfl, dictFind_insert_self (room, agent) now _⟩⟩
  · have hnlt : ¬(now - t < c.ttl_seconds) := not_lt.mpr h.le
    rw [hspec, if_pos h]
    refine ⟨by simp [hnlt], fun heq => ?_⟩
    rw [heq] at h
    exact absurd h (lt_irrefl _)

theorem ttl_boundary_not_suppressed_witness :
    ([((("r", "a") : String × String), (0 : ℚ))].map Prod.fst).Nodup
    ∧ dictFind ("r", "a") [((("r", "a") : String × String), (0 : ℚ))] = some 0
    ∧ (((should_skip ⟨3, [(("r", "a"), 0)]⟩ "r" "a" 3).1 = true ↔ (3 : ℚ) - 0 < 3)
       ∧ ((3 : ℚ) - 0 = 3 →
           (should_skip ⟨3, [(("r", "a"), 0)]⟩ "r" "a" 3).1 = false
           ∧ dictFind ("r", "a")
               (should_skip ⟨3, [(("r", "a"), 0)]⟩ "r" "a" 3).2.cache = some 3)) := by
  refine ⟨by decide, rfl, ?_⟩
  exact ttl_boundary_not_suppressed ⟨3, [(("r", "a"), 0)]⟩ "r" "a" 3 0 (by decide) rfl

/-- C3: a call that finds a non-expired entry for its key returns `true`
and writes nothing: the cache after the call is exactly the old cache with
the expired entries swept out, so the suppressed key keeps its original
timestamp and the window stays measured from the last accepted call. -/
theorem suppressed_leaves_cache (c : DispatchCache) (room agent : String)
    (now t : ℚ) (hfind : dictFind (room, agent) c.cache = some t)
    (hlt : now - t < c.ttl_seconds) :
    (should_skip c room agent now).1 = true
    ∧ (should_skip c room agent now).2.ttl_seconds = c.ttl_seconds
    ∧ (should_skip c room agent now).2.cache
        = c.cache.filter (not_expired c.ttl_seconds now)
    ∧ dictFind (room, agent) (should_skip c room agent now).2.cache = some t := by
  have hkeep := dictFind_filter_not_expired_keep c.ttl_seconds now (room, agent)
    t c.cache hfind (not_lt.mpr hlt.le)
  simp only [should_skip]
  rw [hkeep]
  simp [hlt, hkeep]

theorem suppressed_leaves_cache_witness :
    dictFind ("r", "a") [((("r", "a") : String × String), (0 : ℚ))] = some 0
    ∧ (1 : ℚ) - 0 < 3
    ∧ ((should_skip ⟨3, [(("r", "a"), 0)]⟩ "r" "a" 1).1 = true
       ∧ (should_skip ⟨3, [(("r", "a"), 0)]⟩ "r" "a" 1).2.ttl_seconds = 3
       ∧ (should_skip ⟨3, [(("r", "a"), 0)]⟩ "r" "a" 1).2.cache
           = [((("r", "a") : String × String), (0 : ℚ))].filter (not_expired 3 1)
       ∧ dictFind ("r", "a")
           (should_skip ⟨3, [(("r", "a"), 0)]⟩ "r" "a" 1).2.cache = some 0) := by
  refine ⟨rfl, by simp, ?_⟩
  exact suppressed_leaves_cache ⟨3, [(("r", "a"), 0)]⟩ "r" "a" 1 0 rfl (by simp)

/-! ### Behaviour of `create_dispatch` -/

/-- C1: whenever the deduplication cache suppresses
(`should_skip` returns `true` for the effective agent name),
`create_dispatch` returns the `"skipped"` / `"duplicate-suppressed"`
outcome at once.  The right-hand side does not mention the RPC oracle,
so the result is the same for every `rpc` — no external call is made —
and it is an `Except.ok`, so `AgentDispatchError` is never raised on
this path. -/
theorem create_dispatch_suppressed (s : Settings) (c : DispatchCache)
    (now : ℚ) (rpc : String → String → String → Except String String)
    (request : DispatchRequest)
    (h : (should_skip c request.room
        (py_or_str request.agent_name s.agent_name) now).1 = true) :
    create_dispatch s c now rpc request
      = (Except.ok ⟨"skipped", request.room,
            py_or_str request.agent_name s.agent_name,
            some "duplicate-suppressed"⟩,
         (should_skip c request.room
            (py_or_str request.agent_name s.agent_name) now).2) := by
  have heq : should_skip c request.room
      (py_or_str request.agent_name s.agent_name) now
      = (true, (should_skip c request.room
          (py_or_str request.agent_name s.agent_name) now).2) := by
    rw [← h]
  simp only [create_dispatch]
  rw [heq]

theorem create_dispatch_suppressed_witness :
    (should_skip ⟨3, [(("lobby", "py-agent"), 0)]⟩ "lobby"
        (py_or_str none exampleSettings.agent_name) 1).1 = true
    ∧ create_dispatch exampleSettings ⟨3, [(("lobby", "py-agent"), 0)]⟩ 1
        (fun _ _ _ => .ok "dispatch-1") ⟨"lobby", none, "\x7b\x7d"⟩
      = (Except.ok ⟨"skipped", "lobby",
            py_or_str none exampleSettings.agent_name,
            some "duplicate-suppressed"⟩,
         (should_skip ⟨3, [(("lobby", "py-agent"), 0)]⟩ "lobby"
            (py_or_str none exampleSettings.agent_name) 1).2) := by
  have h1 : (should_skip ⟨3, [(("lobby", "py-agent"), 0)]⟩ "lobby"
      (py_or_str none exampleSettings.agent_name) 1).1 = true := by
    simp [should_skip, dictFind, not_expired, py_or_str, exampleSettings]
  exact ⟨h1, create_dispatch_suppressed exampleSettings
    ⟨3, [(("lobby", "py-agent"), 0)]⟩ 1 (fun _ _ _ => .ok "dispatch-1")
    ⟨"lobby", none, "\x7b\x7d"⟩ h1⟩

/-- C10: an empty-string `agent_name` passes the `DispatchRequest` field
validation, and `create_dispatch` treats it exactly as an absent
`agent_name`: the effective name falls back to the configured default
(and, since the whole run of `create_dispatch` coincides, the fallback is
used both for the cache key and for the external RPC call). -/
theorem empty_agent_name_falls_back (s : Settings) (c : DispatchCache)
    (now : ℚ) (rpc : String → String → String → Except String String)
    (room metadata : String) :
    dispatch_agent_name_field_ok (some "") = true
    ∧ py_or_str (some "") s.agent_name = s.agent_name
    ∧ create_dispatch s c now rpc ⟨room, some "", metadata⟩
        = create_dispatch s c now rpc ⟨room, none, metadata⟩ :=
  ⟨rfl, rfl, rfl⟩

/-! ### Behaviour of `generate_token` -/

/-- C4: a token request whose TTL exceeds the configured ceiling is
rejected with `TokenGenerationError` before anything is built.  The
right-hand side does not mention the signing oracle `sign`, so the result
is the same for every `sign` — the signing primitive is not invoked. -/
theorem ttl_ceiling_rejected (s : Settings) (sign : AccessToken → String)
    (now_meta_iso : String) (now_resp : ℚ) (request : TokenRequest)
    (h : request.ttl_minutes > s.max_token_ttl_minutes) :
    generate_token s sign now_meta_iso now_resp request
      = .error ⟨"TTL exceeds maximum allowed: " ++
          toString s.max_token_ttl_minutes ++ " minutes"⟩ := by
  simp only [generate_token]
  rw [if_pos h]

theorem ttl_ceiling_rejected_witness :
    ((60 : Int) > lowCeilingSettings.max_token_ttl_minutes)
    ∧ generate_token lowCeilingSettings (fun _ => "jwt") "2026-01-01T00:00:00" 0
        ⟨"lobby", some "user1", none, 60, true, false⟩
      = .error ⟨"TTL exceeds maximum allowed: " ++
          toString lowCeilingSettings.max_token_ttl_minutes ++ " minutes"⟩ := by
  refine ⟨by decide, ?_⟩
  exact ttl_ceiling_rejected lowCeilingSettings (fun _ => "jwt")
    "2026-01-01T00:00:00" 0 ⟨"lobby", some "user1", none, 60, true, false⟩
    (by decide)

/-- C5 counterexample: with a configured maximum room-name length of 2, a
model-valid request whose room name has 3 characters is issued a token
without error — `generate_token` performs no length check, so the
token-issuance operation does not fail when the configured maximum is
exceeded. -/
theorem issuance_ignores_length_limits :
    token_request_valid longRoomRequest = true
    ∧ longRoomRequest.room.length > shortRoomSettings.max_room_name_length
    ∧ isError (generate_token shortRoomSettings (fun _ => "jwt")
        "2026-01-01T00:00:00" 0 longRoomRequest) = false := by
  refine ⟨by decide, by decide, rfl⟩

/-- C5 (amended): the length checks live in `validate_token_request`,
which raises `TokenGenerationError` whenever the room name, or a truthy
identity, exceeds its configured maximum — but that method is not invoked
on the issuance path. -/
theorem validate_token_request_length_check (s : Settings)
    (request : TokenRequest)
    (h : request.room.length > s.max_room_name_length
         ∨ ∃ i, request.identity = some i ∧ i ≠ ""
             ∧ i.length > s.max_identity_length) :
    isError (validate_token_request s request) = true := by
  simp only [validate_token_request]
  by_cases hroom : request.room.length > s.max_room_name_length
  · rw [if_pos hroom]
    rfl
  · rcases h with h | ⟨i, hi, hne, hlen⟩
    · exact absurd h hroom
    · have hc : (match request.identity with
          | none => false
          | some i => !(i = "") && decide (i.length > s.max_identity_length))
          = true := by
        rw [hi]
        simp [hne, hlen]
      rw [if_neg hroom, if_pos hc]
      rfl

theorem validate_token_request_length_check_witness :
    (longRoomRequest.room.length > shortRoomSettings.max_room_name_length
      ∨ ∃ i, longRoomRequest.identity = some i ∧ i ≠ ""
          ∧ i.length > shortRoomSettings.max_identity_length)
    ∧ isError (validate_token_request shortRoomSettings longRoomRequest) = true :=
  ⟨Or.inl (by decide),
   validate_token_request_length_check shortRoomSettings longRoomRequest
     (Or.inl (by decide))⟩

/-- Inversion of a successful `generate_token` run: success implies the
TTL was within the ceiling and the request carried an identity, and the
response is exactly the signed claim set's token with the derived
expiry. -/
theorem generate_token_ok_elim (s : Settings) (sign : AccessToken → String)
    (now_meta_iso : String) (now_resp : ℚ) (request : TokenRequest)
    (resp : TokenResponse)
    (hok : generate_token s sign now_meta_iso now_resp request = .ok resp) :
    request.ttl_minutes ≤ s.max_token_ttl_minutes
    ∧ ∃ i, request.identity = some i
        ∧ resp = ⟨sign (build_access_token s now_meta_iso request),
            s.livekit_ws_url, request.room, i, request.ttl_minutes,
            now_resp + 60 * (request.ttl_minutes : ℚ)⟩ := by
  simp only [generate_token] at hok
  by_cases httl : request.ttl_minutes > s.max_token_ttl_minutes
  · rw [if_pos httl] at hok
    exact absurd hok (by simp)
  · rw [if_neg httl] at hok
    refine ⟨not_lt.mp httl, ?_⟩
    rcases hi : request.identity with _ | i
    · rw [hi] at hok
      exact absurd hok (by simp)
    · rw [hi] at hok
      simp only [Except.ok.injEq] at hok
      exact ⟨i, rfl, hok.symm⟩

/-- C6: when `dispatch_agent` is set, the claim set embeds a room
configuration whose single `RoomAgentDispatch` carries the configured
default agent name and metadata built by `build_agent_metadata` from the
build-time clock read (`TokenRequest` offers no agent-name field, so the
caller can never supply an override and the configured default is the
only possible choice); with the identity present — as the endpoints
always resolve it before calling — and the TTL within the ceiling, the
issued token is the signature of exactly that claim set. -/
theorem dispatch_instruction_uses_default_agent (s : Settings)
    (sign : AccessToken → String) (now_meta_iso : String) (now_resp : ℚ)
    (request : TokenRequest) (i : String)
    (hid : request.identity = some i)
    (hd : request.dispatch_agent = true)
    (httl : request.ttl_minutes ≤ s.max_token_ttl_minutes) :
    (build_access_token s now_meta_iso request).room_config
      = some ⟨[⟨s.agent_name, build_agent_metadata now_meta_iso s.environment⟩]⟩
    ∧ generate_token s sign now_meta_iso now_resp request
      = .ok ⟨sign (build_access_token s now_meta_iso request),
             s.livekit_ws_url, request.room, i,
             request.ttl_minutes,
             now_resp + 60 * (request.ttl_minutes : ℚ)⟩ := by
  constructor
  · simp [build_access_token, hd]
  · simp only [generate_token]
    rw [if_neg (not_lt.mpr httl), hid]

theorem dispatch_instruction_uses_default_agent_witness :
    ((⟨"lobby", some "user1", none, 60, true, true⟩ : TokenRequest).identity
      = some "user1")
    ∧ ((⟨"lobby", some "user1", none, 60, true, true⟩ : TokenRequest).dispatch_agent
      = true)
    ∧ ((60 : Int) ≤ exampleSettings.max_token_ttl_minutes)
    ∧ ((build_access_token exampleSettings "2026-01-01T00:00:00"
          ⟨"lobby", some "user1", none, 60, true, true⟩).room_config
        = some ⟨[⟨exampleSettings.agent_name,
            build_agent_metadata "2026-01-01T00:00:00"
              exampleSettings.environment⟩]⟩
       ∧ generate_token exampleSettings (fun _ => "jwt") "2026-01-01T00:00:00" 0
            ⟨"lobby", some "user1", none, 60, true, true⟩
         = .ok ⟨(fun _ => "jwt") (build_access_token exampleSettings
                  "2026-01-01T00:00:00" ⟨"lobby", some "user1", none, 60, true, true⟩),
                exampleSettings.livekit_ws_url, "lobby", "user1", 60,
                0 + 60 * ((60 : Int) : ℚ)⟩) := by
  refine ⟨rfl, rfl, by decide, ?_⟩
  exact dispatch_instruction_uses_default_agent exampleSettings (fun _ => "jwt")
    "2026-01-01T00:00:00" 0 ⟨"lobby", some "user1", none, 60, true, true⟩
    "user1" rfl rfl (by decide)

/-- C7: every successfully issued token is the signature of a claim set
whose grants have room-join, publish and subscribe all true for the
requested room, with the publish-source restriction exactly
`["microphone"]` when `mic_only` is set and absent when it is not. -/
theorem mic_only_grants (s : Settings) (sign : AccessToken → String)
    (now_meta_iso : String) (now_resp : ℚ) (request : TokenRequest)
    (resp : TokenResponse)
    (hok : generate_token s sign now_meta_iso now_resp request = .ok resp) :
    resp.token = sign (build_access_token s now_meta_iso request)
    ∧ (request.mic_only = true →
        (build_access_token s now_meta_iso request).grants.can_publish_sources
          = some ["microphone"])
    ∧ (request.mic_only = false →
        (build_access_token s now_meta_iso request).grants.can_publish_sources
          = none)
    ∧ (build_access_token s now_meta_iso request).grants.room_join = true
    ∧ (build_access_token s now_meta_iso request).grants.can_publish = true
    ∧ (build_access_token s now_meta_iso request).grants.can_subscribe = true
    ∧ (build_access_token s now_meta_iso request).grants.room = request.room := by
  obtain ⟨-, i, -, hresp⟩ :=
    generate_token_ok_elim s sign now_meta_iso now_resp request resp hok
  refine ⟨by rw [hresp], ?_, ?_, ?_, ?_, ?_, ?_⟩
  · intro hm
    by_cases hd : request.dispatch_agent <;> simp [build_access_token, hd, hm]
  · intro hm
    by_cases hd : request.dispatch_agent <;> simp [build_access_token, hd, hm]
  · by_cases hd : request.dispatch_agent <;>
      by_cases hm : request.mic_only <;> simp [build_access_token, hd, hm]
  · by_cases hd : request.dispatch_agent <;>
      by_cases hm : request.mic_only <;> simp [build_access_token, hd, hm]
  · by_cases hd : request.dispatch_agent <;>
      by_cases hm : request.mic_only <;> simp [build_access_token, hd, hm]
  · by_cases hd : request.dispatch_agent <;>
      by_cases hm : request.mic_only <;> simp [build_access_token, hd, hm]

theorem mic_only_grants_witness :
    generate_token exampleSettings (fun _ => "jwt") "2026-01-01T00:00:00" 0
        ⟨"lobby", some "user1", none, 60, true, false⟩
      = .ok ⟨"jwt", "wss://example", "lobby", "user1", 60,
             0 + 60 * ((60 : Int) : ℚ)⟩
    ∧ (((⟨"jwt", "wss://example", "lobby", "user1", 60,
            0 + 60 * ((60 : Int) : ℚ)⟩ : TokenResponse)).token
        = (fun _ => "jwt") (build_access_token exampleSettings
            "2026-01-01T00:00:00" ⟨"lobby", some "user1", none, 60, true, false⟩)
       ∧ ((true : Bool) = true →
           (build_access_token exampleSettings "2026-01-01T00:00:00"
              ⟨"lobby", some "user1", none, 60, true, false⟩).grants.can_publish_sources
             = some ["microphone"])
       ∧ ((true : Bool) = false →
           (build_access_token exampleSettings "2026-01-01T00:00:00"
              ⟨"lobby", some "user1", none, 60, true, false⟩).grants.can_publish_sources
             = none)
       ∧ (build_access_token exampleSettings "2026-01-01T00:00:00"
            ⟨"lobby", some "user1", none, 60, true, false⟩).grants.room_join = true
       ∧ (build_access_token exampleSettings "2026-01-01T00:00:00"
            ⟨"lobby", some "user1", none, 60, true, false⟩).grants.can_publish = true
       ∧ (build_access_token exampleSettings "2026-01-01T00:00:00"
            ⟨"lobby", some "user1", none, 60, true, false⟩).grants.can_subscribe = true
       ∧ (build_access_token exampleSettings "2026-01-01T00:00:00"
            ⟨"lobby", some "user1", none, 60, true, false⟩).grants.room = "lobby") := by
  have hok : generate_token exampleSettings (fun _ => "jwt") "2026-01-01T00:00:00" 0
      ⟨"lobby", some "user1", none, 60, true, false⟩
      = .ok ⟨"jwt", "wss://example", "lobby", "user1", 60,
             0 + 60 * ((60 : Int) : ℚ)⟩ := rfl
  exact ⟨hok, mic_only_grants exampleSettings (fun _ => "jwt")
    "2026-01-01T00:00:00" 0 ⟨"lobby", some "user1", none, 60, true, false⟩
    ⟨"jwt", "wss://example", "lobby", "user1", 60, 0 + 60 * ((60 : Int) : ℚ)⟩
    hok⟩

/-- C8 counterexample: the request `⟨"lobby", identity=None, ttl=60⟩`
passes the pydantic model validation and its TTL is within the ceiling,
yet `generate_token` fails: the `TokenResponse` model requires
`identity: str`, so its construction raises and the service wraps the
failure into `TokenGenerationError` instead of succeeding. -/
theorem valid_request_without_identity_fails :
    token_request_valid ⟨"lobby", none, none, 60, true, false⟩ = true
    ∧ ((60 : Int) ≤ exampleSettings.max_token_ttl_minutes)
    ∧ isError (generate_token exampleSettings (fun _ => "jwt")
        "2026-01-01T00:00:00" 0 ⟨"lobby", none, none, 60, true, false⟩) = true := by
  refine ⟨by decide, by decide, rfl⟩

/-- C8 (amended): a valid token request whose identity is present — the
endpoints always resolve a missing identity to a generated guest
identifier before calling — and whose TTL is within the ceiling is issued
successfully; the reported `expires_at` is the issuance clock read plus
`ttl_minutes` (in seconds), and the signed claim set carries that same
`ttl_minutes`, so the response expiry and the credential's embedded TTL
derive from one value. -/
theorem token_expiry_from_ttl (s : Settings) (sign : AccessToken → String)
    (now_meta_iso : String) (now_resp : ℚ) (request : TokenRequest)
    (i : String)
    (_hvalid : token_request_valid request = true)
    (hid : request.identity = some i)
    (httl : request.ttl_minutes ≤ s.max_token_ttl_minutes) :
    generate_token s sign now_meta_iso now_resp request
      = .ok ⟨sign (build_access_token s now_meta_iso request),
             s.livekit_ws_url, request.room, i,
             request.ttl_minutes,
             now_resp + 60 * (request.ttl_minutes : ℚ)⟩
    ∧ (build_access_token s now_meta_iso request).ttl_minutes
        = request.ttl_minutes := by
  constructor
  · simp only [generate_token]
    rw [if_neg (not_lt.mpr httl), hid]
  · by_cases hd : request.dispatch_agent <;>
      by_cases hm : request.mic_only <;> simp [build_access_token, hd, hm]

theorem token_expiry_from_ttl_witness :
    token_request_valid ⟨"lobby", some "user1", none, 60, true, false⟩ = true
    ∧ ((⟨"lobby", some "user1", none, 60, true, false⟩ : TokenRequest).identity
        = some "user1")
    ∧ ((60 : Int) ≤ exampleSettings.max_token_ttl_minutes)
    ∧ (generate_token exampleSettings (fun _ => "jwt") "2026-01-01T00:00:00" 100
          ⟨"lobby", some "user1", none, 60, true, false⟩
        = .ok ⟨(fun _ => "jwt") (build_access_token exampleSettings
                 "2026-01-01T00:00:00" ⟨"lobby", some "user1", none, 60, true, false⟩),
               exampleSettings.livekit_ws_url, "lobby", "user1", 60,
               100 + 60 * ((60 : Int) : ℚ)⟩
       ∧ (build_access_token exampleSettings "2026-01-01T00:00:00"
            ⟨"lobby", some "user1", none, 60, true, false⟩).ttl_minutes = 60) := by
  refine ⟨by decide, rfl, by decide, ?_⟩
  exact token_expiry_from_ttl exampleSettings (fun _ => "jwt")
    "2026-01-01T00:00:00" 100 ⟨"lobby", some "user1", none, 60, true, false⟩
    "user1" (by decide) rfl (by decide)

end VoiceAgent
